import Mathlib

/-!
# Potato disease detection front end: the upload / detect / display component

A shallow embedding of `src/App.jsx`.  The React component `App` owns five
state cells (`imageFile`, `imagePreview`, `prediction`, `isLoading`, `error`)
and two handlers, `handleImageChange` and `handleDetect`.  `handleDetect` is an
`async` function with two suspension points (`await fetch(...)` and
`await response.json()`); it is embedded as its synchronous prefix plus one
continuation per suspension point, each a pure function on the component state
that is current when the continuation runs (React state setters always act on
the current state, not on the values captured by the closure).
-/

namespace PotatoApp

/-! ## Data model -/

/-- A browser `File` object: the only field the component reads is `name`;
the bytes are what the form body carries. -/
structure File where
  name : String
  bytes : List Nat
  deriving DecidableEq, Repr

/-- A JavaScript Number (IEEE-754 binary64).  A finite value is
`(-1)^neg * mant * 2^exp`, held exactly. -/
inductive JsNumber where
  | nan
  | inf (neg : Bool)
  | finite (neg : Bool) (mant : Nat) (exp : Int)
  deriving DecidableEq, Repr

/-- A JavaScript value as produced by `response.json()`; `null` is also the
initial content of the `prediction` state cell (`useState(null)`). -/
inductive Json where
  | null
  | bool (b : Bool)
  | num (n : JsNumber)
  | str (s : String)
  | arr (xs : List Json)
  | obj (kvs : List (String × Json))

/-- The five `useState` cells of `App` (lines 18-22). -/
structure AppState where
  imageFile : Option File
  imagePreview : String
  prediction : Json
  isLoading : Bool
  error : String

/-- The initial values passed to `useState` (lines 18-22). -/
def initialState : AppState :=
  { imageFile := none, imagePreview := "", prediction := Json.null,
    isLoading := false, error := "" }

/-- A call of `fetch(url, { method, body })` where `body` is a `FormData`,
given as its list of (name, value) entries. -/
structure Request where
  url : String
  method : String
  body : List (String × File)
  deriving DecidableEq, Repr

/-- The literal endpoint of line 50. -/
def endpointUrl : String :=
  "https://us-central1-potato-466816.cloudfunctions.net/predict"

/-- The literal of line 38. -/
def missingInputMessage : String := "Please upload an image first."

/-- The literal of line 64. -/
def inferenceFailedMessage : String :=
  "Failed to get a prediction. The model endpoint might be down or the image format is incorrect."

/-! ## Handlers -/

/-- Lines 25-33.  `file` is `event.target.files[0]` (`none` when the list is
empty, i.e. `undefined`), `objectURL` is what `URL.createObjectURL(file)`
returns for it. -/
def handleImageChange (s : AppState) (file : Option File) (objectURL : String) : AppState :=
  match file with
  | some f =>
      { s with imageFile := some f, imagePreview := objectURL,
               prediction := Json.null, error := "" }
  | none => s

/-- Lines 36-53: the synchronous prefix of `handleDetect`, up to the first
`await`.  Returns the new state and the list of `fetch` calls issued; the
handler has returned when that list is empty and is suspended on the
request otherwise. -/
def handleDetectStart (s : AppState) : AppState × List Request :=
  match s.imageFile with
  | none => ({ s with error := missingInputMessage }, [])
  | some f =>
      ({ s with isLoading := true, error := "", prediction := Json.null },
       [{ url := endpointUrl, method := "POST", body := [("file", f)] }])

/-- Lines 62-67: the `catch` block followed by the `finally` block. -/
def catchFinally (s : AppState) : AppState :=
  { s with error := inferenceFailedMessage, isLoading := false }

/-- What the `fetch` promise settles with: `none` when it rejects (no response
received), `some status` when a response with that HTTP status arrives. -/
abbrev FetchResult := Option Nat

/-- The `response.ok` getter of the Fetch API: status in 200..299. -/
def responseOk (status : Nat) : Bool := decide (200 ≤ status) && decide (status ≤ 299)

/-- Lines 50-57, resumed when `fetch` settles.  Returns the new state and
whether the handler is now suspended on `response.json()` (`true`) or has
finished (`false`). -/
def onFetchSettled (s : AppState) (r : FetchResult) : AppState × Bool :=
  match r with
  | none => (catchFinally s, false)
  | some status =>
      if !responseOk status then (catchFinally s, false)
      else (s, true)

/-- Lines 59-67, resumed when `response.json()` settles: `none` when the body
does not parse, `some d` when it parses to `d`. -/
def onJsonSettled (s : AppState) (r : Option Json) : AppState :=
  match r with
  | none => catchFinally s
  | some d => { s with prediction := d, isLoading := false }

/-- Everything the endpoint call can turn out to be, as seen by one run of
`handleDetect`. -/
inductive Outcome where
  | rejected
  | response (status : Nat) (body : Option Json)

/-- One whole run of `handleDetect` with nothing interleaved: the prefix, then
the continuations fed from the outcome. -/
def handleDetect (s : AppState) (o : Outcome) : AppState :=
  let (s1, reqs) := handleDetectStart s
  match reqs with
  | [] => s1
  | _ :: _ =>
      match o with
      | Outcome.rejected => (onFetchSettled s1 none).1
      | Outcome.response status body =>
          let (s2, suspended) := onFetchSettled s1 (some status)
          if suspended then onJsonSettled s2 body else s2

/-- Line 109: the `disabled` attribute of the detect button. -/
def detectDisabled (s : AppState) : Bool := s.imageFile.isNone || s.isLoading

/-! ## The component together with its outstanding requests -/

/-- A suspended run of `handleDetect`: waiting for `fetch` (line 50) or for
`response.json()` (line 59). -/
inductive Pending where
  | fetching (req : Request)
  | parsing
  deriving DecidableEq, Repr

/-- The component state plus the runs of `handleDetect` that are suspended,
oldest first. -/
structure Sys where
  app : AppState
  pending : List Pending

/-- Nothing selected, nothing in flight. -/
def initialSys : Sys := { app := initialState, pending := [] }

/-- What can happen to the page. -/
inductive Event where
  | selectFile (file : Option File) (objectURL : String)
  | clickDetect
  | fetchSettled (i : Nat) (r : FetchResult)
  | jsonSettled (i : Nat) (r : Option Json)

/-- A call of `handleDetect` itself, whatever the button shows: the prefix
runs and the requests it issues become outstanding. -/
def invokeDetect (s : Sys) : Sys :=
  let (a, reqs) := handleDetectStart s.app
  { app := a, pending := s.pending ++ reqs.map Pending.fetching }

/-- One event.  A click on the detect button reaches `handleDetect` only when
the button is enabled (line 109), and does nothing otherwise; a promise can
settle only for a run that is suspended on it (`none` otherwise). -/
def step (s : Sys) : Event → Option Sys
  | Event.selectFile file objectURL =>
      some { s with app := handleImageChange s.app file objectURL }
  | Event.clickDetect =>
      if detectDisabled s.app then some s else some (invokeDetect s)
  | Event.fetchSettled i r =>
      match s.pending.get? i with
      | some (Pending.fetching _) =>
          let (a, suspended) := onFetchSettled s.app r
          some { app := a,
                 pending := if suspended then s.pending.set i Pending.parsing
                            else s.pending.eraseIdx i }
      | _ => none
  | Event.jsonSettled i r =>
      match s.pending.get? i with
      | some Pending.parsing =>
          some { app := onJsonSettled s.app r, pending := s.pending.eraseIdx i }
      | _ => none

/-- A sequence of events, from the left. -/
def run (s : Sys) : List Event → Option Sys
  | [] => some s
  | e :: es => (step s e).bind (fun t => run t es)

/-! ## Rendering of the result (lines 121-135) -/

/-- JavaScript truthiness (`ToBoolean`), as used by `{prediction && ...}`. -/
def truthy : Json → Bool
  | Json.null => false
  | Json.bool b => b
  | Json.num JsNumber.nan => false
  | Json.num (JsNumber.inf _) => true
  | Json.num (JsNumber.finite _ mant _) => decide (mant ≠ 0)
  | Json.str s => decide (s ≠ "")
  | Json.arr _ => true
  | Json.obj _ => true

/-- Property read `v.key` on a parsed JSON value: `none` is `undefined`.
Only objects carry the properties named here; `kvs` lists an object's own
properties, each key once. -/
def getProp (v : Json) (key : String) : Option Json :=
  match v with
  | Json.obj kvs => kvs.lookup key
  | _ => none

/-- Floor of the binary logarithm, by halving (`fuel` bounds the halvings). -/
def log2Fuel : Nat → Nat → Nat
  | 0, _ => 0
  | fuel + 1, n => if n < 2 then 0 else log2Fuel fuel (n / 2) + 1

/-- Floor of the binary logarithm of `n` (0 for `n = 0`). -/
def floorLog2 (n : Nat) : Nat := log2Fuel n n

/-- Whether `2^e ≤ d / 10^k`. -/
def decimalGe (d k : Nat) (e : Int) : Bool :=
  match e with
  | Int.ofNat n => decide (2 ^ n * 10 ^ k ≤ d)
  | Int.negSucc n => decide (10 ^ k ≤ d * 2 ^ (n + 1))

/-- The integer nearest to `num / den`, a tie going to the even one
(the IEEE-754 default rounding of a significand). -/
def roundHalfEven (num den : Nat) : Nat :=
  let q := num / den
  let r := num % den
  if den < 2 * r then q + 1
  else if 2 * r = den ∧ q % 2 = 1 then q + 1
  else q

/-- The Number value of the decimal literal `d / 10^k` (sign `neg`), as
`JSON.parse` produces it: the binary64 value nearest to the literal, ties to
the even significand, subnormals below `2^-1022`, infinity above the range. -/
def ofDecimal (neg : Bool) (d k : Nat) : JsNumber :=
  if d = 0 then JsNumber.finite neg 0 0
  else
    let l : Int := (floorLog2 d : Int) - (floorLog2 (10 ^ k) : Int)
    let q : Int := if decimalGe d k l then l else l - 1
    let e : Int := max (q - 52) (-1074)
    let m : Nat :=
      match e with
      | Int.ofNat n => roundHalfEven d (10 ^ k * 2 ^ n)
      | Int.negSucc n => roundHalfEven (d * 2 ^ (n + 1)) (10 ^ k)
    let (m, e) := if m = 2 ^ 53 then (2 ^ 52, e + 1) else (m, e)
    if 971 < e then JsNumber.inf neg else JsNumber.finite neg m e

/-- The call `parseFloat(x)` for a Number `x`: the argument is converted to a
string and read back, which returns the same Number, except that `-0` prints
as "0" and so comes back as `+0`. -/
def parseFloatOfNumber : JsNumber → JsNumber
  | JsNumber.finite neg mant exp =>
      JsNumber.finite (neg && decide (mant ≠ 0)) mant exp
  | x => x

/-- The integer nearest to `num / den`, a tie going to the larger one
(step "let n be an integer for which n / 10^f - x is as close to zero as
possible; if there are two such n, pick the larger" of `toFixed`). -/
def roundHalfUp (num den : Nat) : Nat := (2 * num + den) / (2 * den)

/-- Pads `s` on the left with zeros to `w` characters. -/
def padLeftZeros (w : Nat) (s : String) : String :=
  String.mk (List.replicate (w - s.length) '0') ++ s

/-- The digits of `n` with a point before the last two, at least one digit
before the point (steps 11.b-11.c of `toFixed` for two fraction digits). -/
def fixed2Digits (n : Nat) : String :=
  let m := padLeftZeros 3 (Nat.repr n)
  let k := m.length
  String.mk (m.data.take (k - 2)) ++ "." ++ String.mk (m.data.drop (k - 2))

/-- The magnitude `mant * 2^exp` as a fraction of naturals. -/
def magnitude (mant : Nat) (exp : Int) : Nat × Nat :=
  (mant * 2 ^ exp.toNat, 2 ^ (-exp).toNat)

/-- The call `x.toFixed(2)` (ECMAScript `Number.prototype.toFixed`).  For
`|x| ≥ 10^21` the standard hands over to the exponent notation of
`Number::toString`, which is left out here: the result is `none` there. -/
def toFixed2 (x : JsNumber) : Option String :=
  match x with
  | JsNumber.nan => some "NaN"
  | JsNumber.inf neg => some (if neg then "-Infinity" else "Infinity")
  | JsNumber.finite neg mant exp =>
      let sign := if neg && decide (mant ≠ 0) then "-" else ""
      let (num, den) := magnitude mant exp
      if 10 ^ 21 * den ≤ num then none
      else some (sign ++ fixed2Digits (roundHalfUp (num * 10 ^ 2) den))

/-- Line 130: the text `{parseFloat(prediction.confidence).toFixed(2)}%`.
A `confidence` that is missing, `null`, a boolean or an object makes
`parseFloat` return `NaN`; `parseFloat` of a string or an array needs the
string reader of the standard and is left out (`none`). -/
def confidenceText (prediction : Json) : Option String :=
  let pct (x : JsNumber) : Option String := (toFixed2 x).map (fun t => t ++ "%")
  match getProp prediction "confidence" with
  | some (Json.num x) => pct (parseFloatOfNumber x)
  | some (Json.str _) => none
  | some (Json.arr _) => none
  | _ => pct JsNumber.nan

/-- Line 127: the text `{prediction.class}` when it is a string. -/
def classText (prediction : Json) : Option String :=
  match getProp prediction "class" with
  | some (Json.str s) => some s
  | _ => none

/-! ## Sample data -/

/-- A potato leaf photo. -/
def leafA : File := { name := "leaf-a.jpg", bytes := [255, 216, 255] }

/-- Another one. -/
def leafB : File := { name := "leaf-b.jpg", bytes := [255, 216, 254] }

/-- The body `{"class":"Early Blight","confidence":87.345}` once parsed. -/
def earlyBlight : Json :=
  Json.obj [("class", Json.str "Early Blight"),
            ("confidence", Json.num (ofDecimal false 87345 3))]

/-- The body `{"class":"Healthy","confidence":99.5}` once parsed. -/
def healthy : Json :=
  Json.obj [("class", Json.str "Healthy"),
            ("confidence", Json.num (ofDecimal false 995 1))]

/-- A state with a request in flight: `leafA` selected, detect clicked. -/
def inFlight : AppState :=
  (handleDetectStart (handleImageChange initialState (some leafA) "blob:a")).1

/-- The request `handleDetect` issues for `leafA`. -/
def leafARequest : Request :=
  { url := endpointUrl, method := "POST", body := [("file", leafA)] }

/-- The page with `leafA` selected and nothing in flight. -/
def leafASelected : Sys :=
  { app := handleImageChange initialState (some leafA) "blob:a", pending := [] }

/-- The page after `handleDetect` was called twice in a row on `leafASelected`:
two requests outstanding, the earlier one first. -/
def twoCycles : Sys := invokeDetect (invokeDetect leafASelected)

/-- The page `twoCycles` once the earlier request has answered 200 with the
Early Blight body: the later request is still outstanding. -/
def afterStale : Sys :=
  { app := { imageFile := some leafA, imagePreview := "blob:a", prediction := earlyBlight,
             isLoading := false, error := "" },
    pending := [Pending.fetching leafARequest] }

/-- The page after `leafA` was selected, detect clicked, `leafB` selected while
the request was in flight, and the answer (200, Early Blight) arrived. -/
def afterSuccess : Sys :=
  { app := { imageFile := some leafB, imagePreview := "blob:b", prediction := earlyBlight,
             isLoading := false, error := "" },
    pending := [] }

/-- The page after `leafA` was selected, detect clicked and the endpoint
answered 500. -/
def afterFailure : Sys :=
  { app := { imageFile := some leafA, imagePreview := "blob:a", prediction := Json.null,
             isLoading := false, error := inferenceFailedMessage },
    pending := [] }

/-- The page after `leafA` was selected and detect clicked three times in a
row: the second and third click met a disabled button. -/
def afterClicks : Sys :=
  { app := inFlight, pending := [Pending.fetching leafARequest] }

/-- The two shapes a state of the page can have: at rest (nothing outstanding,
not loading, result and error not both set) or in a cycle (one request
outstanding, loading, result and error both cleared). -/
def Inv (s : Sys) : Prop :=
  (s.pending = [] ∧ s.app.isLoading = false ∧
      (s.app.prediction = Json.null ∨ s.app.error = "")) ∨
  (∃ p, s.pending = [p] ∧ s.app.isLoading = true ∧
      s.app.prediction = Json.null ∧ s.app.error = "")

/-! ## `handleImageChange` -/

/-- C1 as stated fails: on the state with `leafA` selected and its request in
flight, selecting `leafB` does not leave `isLoading = false`: the handler never
writes that cell, so the flag stays `true`. -/
theorem handleImageChange_not_idle_counterexample :
    inFlight.isLoading = true ∧
    ¬ ((handleImageChange inFlight (some leafB) "blob:b").prediction = Json.null ∧
       (handleImageChange inFlight (some leafB) "blob:b").error = "" ∧
       (handleImageChange inFlight (some leafB) "blob:b").isLoading = false ∧
       (handleImageChange inFlight (some leafB) "blob:b").imageFile = some leafB) := by
  refine ⟨rfl, ?_⟩
  rintro ⟨-, -, h, -⟩
  exact absurd h (by decide)

/-- C1 amended: for every state and every non-null file, `handleImageChange`
leaves `prediction = null`, `error = ''`, `imageFile` equal to the new file and
`imagePreview` equal to its object URL, and leaves `isLoading` as it was (so
the flag is `false` afterwards exactly when it was `false` before). -/
theorem handleImageChange_clears_result (s : AppState) (f : File) (objectURL : String) :
    (handleImageChange s (some f) objectURL).prediction = Json.null ∧
    (handleImageChange s (some f) objectURL).error = "" ∧
    (handleImageChange s (some f) objectURL).imageFile = some f ∧
    (handleImageChange s (some f) objectURL).imagePreview = objectURL ∧
    (handleImageChange s (some f) objectURL).isLoading = s.isLoading :=
  ⟨rfl, rfl, rfl, rfl, rfl⟩

/-! ## `handleDetect` -/

/-- C2: with no file held, `handleDetect` issues no request, sets `error` to
the missing-input message and is finished at once, whatever the endpoint would
have answered; `isLoading`, `prediction`, `imageFile` and `imagePreview` keep
their values. -/
theorem handleDetect_without_image (s : AppState) (o : Outcome) (h : s.imageFile = none) :
    (handleDetectStart s).2 = [] ∧
    handleDetect s o = (handleDetectStart s).1 ∧
    (handleDetect s o).error = "Please upload an image first." ∧
    (handleDetect s o).isLoading = s.isLoading ∧
    (handleDetect s o).prediction = s.prediction ∧
    (handleDetect s o).imageFile = s.imageFile ∧
    (handleDetect s o).imagePreview = s.imagePreview := by
  simp [handleDetect, handleDetectStart, h, missingInputMessage]

/-- C2 at the initial state, with an endpoint that would have answered 200. -/
theorem handleDetect_without_image_witness :
    (handleDetectStart initialState).2 = [] ∧
    handleDetect initialState (Outcome.response 200 (some earlyBlight))
      = (handleDetectStart initialState).1 ∧
    (handleDetect initialState (Outcome.response 200 (some earlyBlight))).error
      = "Please upload an image first." ∧
    (handleDetect initialState (Outcome.response 200 (some earlyBlight))).isLoading
      = initialState.isLoading ∧
    (handleDetect initialState (Outcome.response 200 (some earlyBlight))).prediction
      = initialState.prediction ∧
    (handleDetect initialState (Outcome.response 200 (some earlyBlight))).imageFile
      = initialState.imageFile ∧
    (handleDetect initialState (Outcome.response 200 (some earlyBlight))).imagePreview
      = initialState.imagePreview :=
  handleDetect_without_image initialState (Outcome.response 200 (some earlyBlight)) rfl

/-- C3: with a file held and an ok (2xx) response whose body parses to `d`, a
run of `handleDetect` ends with `prediction = d`, `error = ''` and
`isLoading = false`. -/
theorem handleDetect_success (s : AppState) (f : File) (status : Nat) (d : Json)
    (h : s.imageFile = some f) (hok : responseOk status = true) :
    (handleDetect s (Outcome.response status (some d))).prediction = d ∧
    (handleDetect s (Outcome.response status (some d))).error = "" ∧
    (handleDetect s (Outcome.response status (some d))).isLoading = false := by
  simp [handleDetect, handleDetectStart, h, onFetchSettled, hok, onJsonSettled]

/-- C3 on the sample body: status 200 and the Early Blight body, from a state
that still shows an older failure. -/
theorem handleDetect_success_witness :
    classText earlyBlight = some "Early Blight" ∧
    (handleDetect { inFlight with isLoading := false, error := inferenceFailedMessage }
        (Outcome.response 200 (some earlyBlight))).prediction = earlyBlight ∧
    (handleDetect { inFlight with isLoading := false, error := inferenceFailedMessage }
        (Outcome.response 200 (some earlyBlight))).error = "" ∧
    (handleDetect { inFlight with isLoading := false, error := inferenceFailedMessage }
        (Outcome.response 200 (some earlyBlight))).isLoading = false :=
  ⟨by decide,
   handleDetect_success { inFlight with isLoading := false, error := inferenceFailedMessage }
     leafA 200 earlyBlight rfl (by decide)⟩

/-- C4: with a file held, the three ways the endpoint call can fail (a response
that is not ok, a rejected `fetch`, an ok response whose body does not parse)
end a run of `handleDetect` in one and the same state: the state before it with
`error` the inference-failed message, `prediction = null`, `isLoading = false`. -/
theorem handleDetect_failure (s : AppState) (f : File) (h : s.imageFile = some f) :
    (∀ status body, responseOk status = false →
      handleDetect s (Outcome.response status body)
        = { s with isLoading := false, prediction := Json.null,
                   error := "Failed to get a prediction. The model endpoint might be down or the image format is incorrect." }) ∧
    handleDetect s Outcome.rejected
        = { s with isLoading := false, prediction := Json.null,
                   error := "Failed to get a prediction. The model endpoint might be down or the image format is incorrect." } ∧
    (∀ status, responseOk status = true →
      handleDetect s (Outcome.response status none)
        = { s with isLoading := false, prediction := Json.null,
                   error := "Failed to get a prediction. The model endpoint might be down or the image format is incorrect." }) := by
  refine ⟨?_, ?_, ?_⟩
  · intro status body hbad
    simp [handleDetect, handleDetectStart, h, onFetchSettled, hbad, catchFinally,
      inferenceFailedMessage]
  · simp [handleDetect, handleDetectStart, h, onFetchSettled, catchFinally,
      inferenceFailedMessage]
  · intro status hok
    simp [handleDetect, handleDetectStart, h, onFetchSettled, hok, onJsonSettled,
      catchFinally, inferenceFailedMessage]

/-- C4 at the state with `leafA` selected: status 500, a rejected `fetch` and
a 200 whose body does not parse. -/
theorem handleDetect_failure_witness :
    handleDetect (handleImageChange initialState (some leafA) "blob:a")
        (Outcome.response 500 (some earlyBlight))
      = { handleImageChange initialState (some leafA) "blob:a" with
            isLoading := false, prediction := Json.null,
            error := "Failed to get a prediction. The model endpoint might be down or the image format is incorrect." } ∧
    handleDetect (handleImageChange initialState (some leafA) "blob:a") Outcome.rejected
      = { handleImageChange initialState (some leafA) "blob:a" with
            isLoading := false, prediction := Json.null,
            error := "Failed to get a prediction. The model endpoint might be down or the image format is incorrect." } ∧
    handleDetect (handleImageChange initialState (some leafA) "blob:a")
        (Outcome.response 200 none)
      = { handleImageChange initialState (some leafA) "blob:a" with
            isLoading := false, prediction := Json.null,
            error := "Failed to get a prediction. The model endpoint might be down or the image format is incorrect." } :=
  ⟨(handleDetect_failure (handleImageChange initialState (some leafA) "blob:a") leafA rfl).1
      500 (some earlyBlight) (by decide),
   (handleDetect_failure (handleImageChange initialState (some leafA) "blob:a") leafA rfl).2.1,
   (handleDetect_failure (handleImageChange initialState (some leafA) "blob:a") leafA rfl).2.2
      200 (by decide)⟩

/-- C10: with a file held, the start of `handleDetect` sets `isLoading = true`,
`error = ''` and `prediction = null`, keeps the file and its preview, and
issues exactly one request: a POST to the fixed endpoint whose form body has
the single part `file`, holding the file. -/
theorem handleDetectStart_request (s : AppState) (f : File) (h : s.imageFile = some f) :
    (handleDetectStart s).1.isLoading = true ∧
    (handleDetectStart s).1.error = "" ∧
    (handleDetectStart s).1.prediction = Json.null ∧
    (handleDetectStart s).1.imageFile = some f ∧
    (handleDetectStart s).1.imagePreview = s.imagePreview ∧
    (handleDetectStart s).2 =
      [{ url := "https://us-central1-potato-466816.cloudfunctions.net/predict",
         method := "POST", body := [("file", f)] }] := by
  simp [handleDetectStart, h, endpointUrl]

/-- C10 at the state with `leafA` selected and an older result on show. -/
theorem handleDetectStart_request_witness :
    (handleDetectStart { inFlight with isLoading := false, prediction := healthy }).1.isLoading
      = true ∧
    (handleDetectStart { inFlight with isLoading := false, prediction := healthy }).1.error
      = "" ∧
    (handleDetectStart { inFlight with isLoading := false, prediction := healthy }).1.prediction
      = Json.null ∧
    (handleDetectStart { inFlight with isLoading := false, prediction := healthy }).1.imageFile
      = some leafA ∧
    (handleDetectStart { inFlight with isLoading := false, prediction := healthy }).1.imagePreview
      = "blob:a" ∧
    (handleDetectStart { inFlight with isLoading := false, prediction := healthy }).2 =
      [{ url := "https://us-central1-potato-466816.cloudfunctions.net/predict",
         method := "POST", body := [("file", leafA)] }] :=
  handleDetectStart_request { inFlight with isLoading := false, prediction := healthy } leafA rfl

/-! ## Reachable states of the page -/

theorem inv_initial : Inv initialSys :=
  Or.inl ⟨rfl, rfl, Or.inl rfl⟩

theorem inv_selectFile (s : Sys) (file : Option File) (objectURL : String) (h : Inv s) :
    Inv { s with app := handleImageChange s.app file objectURL } := by
  cases file with
  | none => exact h
  | some f =>
    rcases h with ⟨hp, hl, _⟩ | ⟨p, hp, hl, _, _⟩
    · exact Or.inl ⟨hp, hl, Or.inl rfl⟩
    · exact Or.inr ⟨p, hp, hl, rfl, rfl⟩

theorem inv_clickDetect (s t : Sys) (h : Inv s) (hs : step s Event.clickDetect = some t) :
    Inv t := by
  unfold step at hs
  by_cases hd : detectDisabled s.app = true
  · simp only [hd, if_true, Option.some.injEq] at hs
    exact hs ▸ h
  · simp only [hd, Bool.false_eq_true, if_false, Option.some.injEq] at hs
    subst hs
    simp only [detectDisabled, Bool.or_eq_true, not_or, Bool.not_eq_true] at hd
    obtain ⟨hf, hl⟩ := hd
    rcases h with ⟨hp, _, _⟩ | ⟨p, _, hl2, _, _⟩
    · cases hi : s.app.imageFile with
      | none => simp [hi] at hf
      | some f =>
        refine Or.inr ⟨Pending.fetching
          { url := endpointUrl, method := "POST", body := [("file", f)] }, ?_, ?_, ?_, ?_⟩ <;>
          simp [invokeDetect, handleDetectStart, hi, hp]
    · rw [hl] at hl2
      exact absurd hl2 (by decide)

theorem inv_fetchSettled (s t : Sys) (i : Nat) (r : FetchResult) (h : Inv s)
    (hs : step s (Event.fetchSettled i r) = some t) : Inv t := by
  rcases h with ⟨hp, _, _⟩ | ⟨p, hp, hl, hpr, he⟩
  · simp [step, hp] at hs
  · cases i with
    | succ j => simp [step, hp] at hs
    | zero =>
      cases p with
      | parsing => simp [step, hp] at hs
      | fetching req =>
        cases r with
        | none =>
          simp [step, hp, onFetchSettled] at hs
          subst hs
          exact Or.inl ⟨rfl, rfl, Or.inl hpr⟩
        | some status =>
          by_cases hok : responseOk status = true
          · simp [step, hp, onFetchSettled, hok] at hs
            subst hs
            exact Or.inr ⟨Pending.parsing, rfl, hl, hpr, he⟩
          · simp [step, hp, onFetchSettled, hok] at hs
            subst hs
            exact Or.inl ⟨rfl, rfl, Or.inl hpr⟩

theorem inv_jsonSettled (s t : Sys) (i : Nat) (r : Option Json) (h : Inv s)
    (hs : step s (Event.jsonSettled i r) = some t) : Inv t := by
  rcases h with ⟨hp, _, _⟩ | ⟨p, hp, _, hpr, he⟩
  · simp [step, hp] at hs
  · cases i with
    | succ j => simp [step, hp] at hs
    | zero =>
      cases p with
      | fetching req => simp [step, hp] at hs
      | parsing =>
        cases r with
        | none =>
          simp [step, hp, onJsonSettled] at hs
          subst hs
          exact Or.inl ⟨rfl, rfl, Or.inl hpr⟩
        | some d =>
          simp [step, hp, onJsonSettled] at hs
          subst hs
          exact Or.inl ⟨rfl, rfl, Or.inr he⟩

theorem inv_step (s t : Sys) (e : Event) (h : Inv s) (hs : step s e = some t) : Inv t := by
  cases e with
  | selectFile file objectURL =>
    simp only [step, Option.some.injEq] at hs
    exact hs ▸ inv_selectFile s file objectURL h
  | clickDetect => exact inv_clickDetect s t h hs
  | fetchSettled i r => exact inv_fetchSettled s t i r h hs
  | jsonSettled i r => exact inv_jsonSettled s t i r h hs

theorem inv_run (es : List Event) (s t : Sys) (h : Inv s) (hs : run s es = some t) :
    Inv t := by
  induction es generalizing s with
  | nil =>
    simp only [run, Option.some.injEq] at hs
    exact hs ▸ h
  | cons e es ih =>
    simp only [run] at hs
    cases hstep : step s e with
    | none => simp [hstep] at hs
    | some u =>
      rw [hstep] at hs
      exact ih u (inv_step s u e h hstep) hs

/-- C6: in every state reachable from the initial one by file selections,
clicks on the detect button (which reach the handler only while the button is
enabled) and arrivals of endpoint outcomes, `prediction` is `null` or `error`
is the empty string, so the result panel (`prediction && ...`) and the error
banner (`error && ...`) are never both rendered. -/
theorem prediction_error_exclusive (es : List Event) (t : Sys)
    (h : run initialSys es = some t) :
    (t.app.prediction = Json.null ∨ t.app.error = "") ∧
    ¬ (truthy t.app.prediction = true ∧ t.app.error ≠ "") := by
  have key : t.app.prediction = Json.null ∨ t.app.error = "" := by
    rcases inv_run es initialSys t inv_initial h with ⟨_, _, hx⟩ | ⟨_, _, _, hpr, _⟩
    · exact hx
    · exact Or.inl hpr
  refine ⟨key, ?_⟩
  rintro ⟨ht, he⟩
  rcases key with hn | hn
  · rw [hn] at ht
    exact absurd ht (by decide)
  · exact he hn

/-- C6 on a run that ends with a result on show. -/
theorem prediction_error_exclusive_witness :
    (afterSuccess.app.prediction = Json.null ∨ afterSuccess.app.error = "") ∧
    ¬ (truthy afterSuccess.app.prediction = true ∧ afterSuccess.app.error ≠ "") :=
  prediction_error_exclusive
    [Event.selectFile (some leafA) "blob:a", Event.clickDetect,
     Event.selectFile (some leafB) "blob:b", Event.fetchSettled 0 (some 200),
     Event.jsonSettled 0 (some earlyBlight)]
    afterSuccess rfl

/-- C7: in every reachable state `isLoading` is `true` exactly when a run of
`handleDetect` is outstanding (its request issued, its outcome not yet in);
so the flag is `false` whenever nothing is outstanding, however the last
request ended. -/
theorem loading_iff_outstanding (es : List Event) (t : Sys)
    (h : run initialSys es = some t) :
    t.app.isLoading = true ↔ t.pending ≠ [] := by
  rcases inv_run es initialSys t inv_initial h with ⟨hp, hl, _⟩ | ⟨p, hp, hl, _, _⟩
  · simp [hp, hl]
  · simp [hp, hl]

/-- C7 on a run that ends with the endpoint answering 500. -/
theorem loading_iff_outstanding_witness :
    afterFailure.app.isLoading = true ↔ afterFailure.pending ≠ [] :=
  loading_iff_outstanding
    [Event.selectFile (some leafA) "blob:a", Event.clickDetect,
     Event.fetchSettled 0 (some 500)]
    afterFailure rfl

/-- C9: in every reachable state at most one detect request is outstanding. -/
theorem at_most_one_outstanding (es : List Event) (t : Sys)
    (h : run initialSys es = some t) :
    t.pending.length ≤ 1 := by
  rcases inv_run es initialSys t inv_initial h with ⟨hp, _, _⟩ | ⟨p, hp, _, _, _⟩
  · simp [hp]
  · simp [hp]

/-- C9 on a run with three clicks in a row. -/
theorem at_most_one_outstanding_witness : afterClicks.pending.length ≤ 1 :=
  at_most_one_outstanding
    [Event.selectFile (some leafA) "blob:a", Event.clickDetect, Event.clickDetect,
     Event.clickDetect]
    afterClicks rfl

/-! ## A second cycle on top of an outstanding one -/

/-- C8 as stated fails: with two cycles started on `leafA`, the answer of the
earlier one (200, Early Blight body) is not ignored: the later request is still
outstanding afterwards, yet `isLoading` went from `true` to `false` and
`prediction` from `null` to the body. -/
theorem stale_response_ignored_counterexample :
    twoCycles.pending = [Pending.fetching leafARequest, Pending.fetching leafARequest] ∧
    run twoCycles [Event.fetchSettled 0 (some 200), Event.jsonSettled 0 (some earlyBlight)]
      = some afterStale ∧
    afterStale.pending = [Pending.fetching leafARequest] ∧
    ¬ (afterStale.app.prediction = twoCycles.app.prediction ∧
       afterStale.app.error = twoCycles.app.error ∧
       afterStale.app.isLoading = twoCycles.app.isLoading) := by
  refine ⟨rfl, rfl, rfl, ?_⟩
  rintro ⟨-, -, h⟩
  exact absurd h (by decide)

/-- C8 amended: when `handleDetect` is called twice with a file held and
nothing outstanding before, the outcome of the earlier request is applied to
the state like any outcome while the later request stays outstanding: an ok
response with a parsable body `d` gives `prediction = d`, `error = ''`,
`isLoading = false`; a rejected `fetch`, a response that is not ok and a body
that does not parse give the inference-failed message, `prediction = null`,
`isLoading = false`. -/
theorem stale_response_applied (s : Sys) (f : File)
    (hf : s.app.imageFile = some f) (hp : s.pending = []) :
    (invokeDetect (invokeDetect s)).pending
      = [Pending.fetching { url := endpointUrl, method := "POST", body := [("file", f)] },
         Pending.fetching { url := endpointUrl, method := "POST", body := [("file", f)] }] ∧
    (invokeDetect (invokeDetect s)).app.isLoading = true ∧
    (∀ status d, responseOk status = true →
      ∃ t, run (invokeDetect (invokeDetect s))
             [Event.fetchSettled 0 (some status), Event.jsonSettled 0 (some d)] = some t ∧
        t.pending
          = [Pending.fetching { url := endpointUrl, method := "POST", body := [("file", f)] }] ∧
        t.app.prediction = d ∧ t.app.error = "" ∧ t.app.isLoading = false) ∧
    (∀ status, responseOk status = true →
      ∃ t, run (invokeDetect (invokeDetect s))
             [Event.fetchSettled 0 (some status), Event.jsonSettled 0 none] = some t ∧
        t.pending
          = [Pending.fetching { url := endpointUrl, method := "POST", body := [("file", f)] }] ∧
        t.app.prediction = Json.null ∧ t.app.error = inferenceFailedMessage ∧
        t.app.isLoading = false) ∧
    (∀ status, responseOk status = false →
      ∃ t, run (invokeDetect (invokeDetect s)) [Event.fetchSettled 0 (some status)] = some t ∧
        t.pending
          = [Pending.fetching { url := endpointUrl, method := "POST", body := [("file", f)] }] ∧
        t.app.prediction = Json.null ∧ t.app.error = inferenceFailedMessage ∧
        t.app.isLoading = false) ∧
    (∃ t, run (invokeDetect (invokeDetect s)) [Event.fetchSettled 0 none] = some t ∧
        t.pending
          = [Pending.fetching { url := endpointUrl, method := "POST", body := [("file", f)] }] ∧
        t.app.prediction = Json.null ∧ t.app.error = inferenceFailedMessage ∧
        t.app.isLoading = false) := by
  refine ⟨?_, ?_, ?_, ?_, ?_, ?_⟩
  · simp [invokeDetect, handleDetectStart, hf, hp]
  · simp [invokeDetect, handleDetectStart, hf]
  · intro status d hok
    simp [run, step, invokeDetect, handleDetectStart, hf, hp, onFetchSettled, hok,
      onJsonSettled]
  · intro status hok
    simp [run, step, invokeDetect, handleDetectStart, hf, hp, onFetchSettled, hok,
      onJsonSettled, catchFinally]
  · intro status hbad
    simp [run, step, invokeDetect, handleDetectStart, hf, hp, onFetchSettled, hbad,
      catchFinally]
  · simp [run, step, invokeDetect, handleDetectStart, hf, hp, onFetchSettled, catchFinally]

/-- C8 amended, on `leafASelected` with the earlier request answered 503. -/
theorem stale_response_applied_witness :
    leafASelected.app.imageFile = some leafA ∧ leafASelected.pending = [] ∧
    ∃ t, run (invokeDetect (invokeDetect leafASelected)) [Event.fetchSettled 0 (some 503)]
           = some t ∧
      t.pending
        = [Pending.fetching { url := endpointUrl, method := "POST", body := [("file", leafA)] }] ∧
      t.app.prediction = Json.null ∧ t.app.error = inferenceFailedMessage ∧
      t.app.isLoading = false :=
  ⟨rfl, rfl, (stale_response_applied leafASelected leafA rfl rfl).2.2.2.2.1 503 (by decide)⟩

/-! ## The confidence text -/

theorem roundHalfUp_nearest (num den : Nat) (hden : 0 < den) :
    2 * roundHalfUp num den * den ≤ 2 * num + den ∧
    2 * num + den < 2 * (roundHalfUp num den + 1) * den := by
  unfold roundHalfUp
  have h2 : 0 < 2 * den := by omega
  have hle := Nat.div_mul_le_self (2 * num + den) (2 * den)
  have hlt := Nat.lt_div_mul_add (a := 2 * num + den) h2
  constructor
  · calc 2 * ((2 * num + den) / (2 * den)) * den
        = (2 * num + den) / (2 * den) * (2 * den) := by ring
      _ ≤ 2 * num + den := hle
  · calc 2 * num + den < (2 * num + den) / (2 * den) * (2 * den) + 2 * den := hlt
      _ = 2 * ((2 * num + den) / (2 * den) + 1) * den := by ring

/-- C5 as stated fails: the JSON number 87.345 is the binary64 value
`6146357960198062 * 2^-46` (the nearest one to 87.345: half a unit in the last
place is `1000` on the scale used below), which lies below 87.345, so the text
rendered for the Early Blight body is not "87.35%". -/
theorem confidenceText_8735_counterexample :
    ofDecimal false 87345 3 = JsNumber.finite false 6146357960198062 (-46) ∧
    2 ^ 52 ≤ 6146357960198062 ∧ 6146357960198062 < 2 ^ 53 ∧
    6146357960198062 * 10 ^ 3 < 87345 * 2 ^ 46 ∧
    2 * (87345 * 2 ^ 46 - 6146357960198062 * 10 ^ 3) < 10 ^ 3 ∧
    confidenceText earlyBlight ≠ some "87.35%" := by
  decide

/-- C5 amended: the confidence text of a prediction whose confidence is a
finite Number `±mant * 2^exp` below `10^21` is sign, then the digits of the
integer `n` nearest to a hundred times the magnitude of that binary64 value (a
tie going up) with a point before the last two digits, then '%'; for the JSON
number 87.345, whose binary64 value lies below 87.345, the text is "87.34%". -/
theorem confidenceText_toFixed :
    (∀ (neg : Bool) (mant : Nat) (exp : Int) (cls : Json),
      2 * roundHalfUp ((magnitude mant exp).1 * 10 ^ 2) (magnitude mant exp).2
          * (magnitude mant exp).2
        ≤ 2 * ((magnitude mant exp).1 * 10 ^ 2) + (magnitude mant exp).2 ∧
      2 * ((magnitude mant exp).1 * 10 ^ 2) + (magnitude mant exp).2
        < 2 * (roundHalfUp ((magnitude mant exp).1 * 10 ^ 2) (magnitude mant exp).2 + 1)
          * (magnitude mant exp).2 ∧
      confidenceText
          (Json.obj [("class", cls), ("confidence", Json.num (JsNumber.finite neg mant exp))])
        = if 10 ^ 21 * (magnitude mant exp).2 ≤ (magnitude mant exp).1 then none
          else some ((if neg && decide (mant ≠ 0) then "-" else "")
                ++ fixed2Digits
                    (roundHalfUp ((magnitude mant exp).1 * 10 ^ 2) (magnitude mant exp).2)
                ++ "%")) ∧
    confidenceText earlyBlight = some "87.34%" := by
  refine ⟨?_, by decide⟩
  intro neg mant exp cls
  have hden : 0 < (magnitude mant exp).2 := by
    simp [magnitude]
  obtain ⟨h1, h2⟩ := roundHalfUp_nearest ((magnitude mant exp).1 * 10 ^ 2) _ hden
  refine ⟨h1, h2, ?_⟩
  have hkey : (("confidence" : String) == "class") = false := by decide
  simp only [confidenceText, getProp, List.lookup, hkey, beq_self_eq_true,
    parseFloatOfNumber, toFixed2]
  by_cases hbig : 10 ^ 21 * (magnitude mant exp).2 ≤ (magnitude mant exp).1
  · rw [if_pos hbig, if_pos hbig]
    rfl
  · rw [if_neg hbig, if_neg hbig]
    cases neg <;> by_cases hm : mant = 0 <;> simp [hm, String.append_assoc]

end PotatoApp
